import Mathlib

/-!
Verification of the asynchronous task-execution and progress-reporting core of
tg-html-gen, embedded shallowly from src/tganalyzer/gui/__init__.py.

The embedding covers:
  - Worker (lines 52-93): the QRunnable wrapper whose run method invokes the
    stored callable and translates its outcome into signal emissions
    (progress, result, error, finished);
  - ProgressBarDialog (lines 96-125): the modal progress dialog that updates
    its bar on each progress signal and closes itself exactly at 100;
  - MainWindow.create_report (lines 416-433) and
    MainWindow.create_html_report (lines 435-475): the orchestration that
    submits the report task and the local containment of html_export faults.
-/

namespace TgAnalyzer

/-- A Python exception as observed by the except clause of Worker.run:
kind models the exception type (sys.exc_info()[0]), message models the
exception value (sys.exc_info()[1]), trace models traceback.format_exc(). -/
structure Fault where
  kind : String
  message : String
  trace : String
deriving Repr, DecidableEq

/-- One event on the Outcome Channel of a task: the four signals declared by
WorkerSignals (lines 46-49). The error payload is the tuple
(exctype, value, traceback.format_exc()) emitted at line 87. -/
inductive Event (α : Type) where
  | progress (percent : Int)
  | result (value : α)
  | error (kind message trace : String)
  | finished
deriving Repr, DecidableEq

/-- Whether an event is a Progress Event. -/
def Event.isProgress {α : Type} : Event α → Bool
  | .progress _ => true
  | _ => false

/-- Whether an event is terminal, i.e. a Result Event or an Error Event. -/
def Event.isTerminal {α : Type} : Event α → Bool
  | .result _ => true
  | .error _ _ _ => true
  | _ => false

/-- Whether an event is the Completion Event (the finished signal). -/
def Event.isFinished {α : Type} : Event α → Bool
  | .finished => true
  | _ => false

/-- Whether an event is an Error Event. -/
def Event.isError {α : Type} : Event α → Bool
  | .error _ _ _ => true
  | _ => false

/-- The stored callable of a Worker, already applied to its stored argument
tuple self.args. A Python callable can be invoked in the two ways Worker.run
uses (lines 79-83), so the embedding records both behaviours:
  - callWithProgress: the invocation func(*self.args, progress=handle) at
    lines 80-81; the first component lists the percent values the body passes
    to the progress-emitting handle, in call order, and the second component
    is the outcome (normal return value or raised fault);
  - callPlain: the invocation func(*self.args) at line 83; no handle is
    passed, so the body has no way to emit progress and only the outcome is
    observable. -/
structure Operation (α : Type) where
  callWithProgress : List Int × Except Fault α
  callPlain : Except Fault α

/-- The Worker of lines 52-73: it stores the callable together with its
arguments (folded into Operation) and the progress_flag passed to the
constructor. -/
structure Worker (α : Type) where
  func : Operation α
  progress_flag : Bool

/-- The invocation performed by lines 79-83 of Worker.run: with the handle as
an extra parameter when progress_flag is set, plain otherwise. Returns the
progress percents emitted through the handle during the call, paired with the
outcome of the call. -/
def Worker.invoke {α : Type} (w : Worker α) : List Int × Except Fault α :=
  if w.progress_flag then w.func.callWithProgress
  else ([], w.func.callPlain)

/-- Everything observable about one execution of Worker.run:
  - events: the signal emissions delivered on the Outcome Channel, in order;
  - log: the lines written to the diagnostic sink (traceback.print_exc() at
    line 85 writes the formatted traceback to stderr);
  - raised: the fault, if any, that propagates out of Worker.run itself. -/
structure RunResult (α : Type) where
  events : List (Event α)
  log : List String
  raised : Option Fault

/-- Worker.run (lines 76-93) with the delivery of the terminal signal made
explicit: emitFault = some g models the Signal.emit call for the terminal
event (line 87 or line 90) itself raising g. The try/except/else/finally of
the source dictates the shape of each branch:
  - the body runs first and its progress emissions are delivered as they
    happen;
  - on a raised fault, line 85 writes the traceback to the sink, then line 87
    emits the error triple (exctype, value, formatted traceback);
  - on normal return, line 90 emits the result;
  - the finally clause at lines 91-93 emits finished in every case, also when
    the terminal emit itself raised, and an emit fault then propagates out of
    run after the finally clause has completed. -/
def Worker.runWith {α : Type} (w : Worker α) (emitFault : Option Fault) :
    RunResult α :=
  match w.invoke with
  | (ps, Except.ok v) =>
      { events := ps.map Event.progress ++
          (match emitFault with
           | none => [Event.result v, Event.finished]
           | some _ => [Event.finished]),
        log := [],
        raised := emitFault }
  | (ps, Except.error f) =>
      { events := ps.map Event.progress ++
          (match emitFault with
           | none => [Event.error f.kind f.message f.trace, Event.finished]
           | some _ => [Event.finished]),
        log := [f.trace],
        raised := emitFault }

/-- Worker.run in the ordinary case where every emit call succeeds. -/
def Worker.run {α : Type} (w : Worker α) : RunResult α :=
  w.runWith none

/-- The state of a ProgressBarDialog (lines 96-115): the message passed to the
constructor, the current value of its QProgressBar, and whether the dialog is
still open. A freshly constructed dialog is open and its bar shows zero
progress (the constructor at lines 106-115 sets no value on the bar). -/
structure ProgressBarDialog where
  message : String
  percent : Int
  isOpen : Bool
deriving Repr, DecidableEq

/-- The constructor of ProgressBarDialog (lines 106-115), taking the displayed
message; the parent window only sets Qt ownership and carries no state the
embedding observes. -/
def ProgressBarDialog.init (message : String) : ProgressBarDialog :=
  { message := message, percent := 0, isOpen := true }

/-- ProgressBarDialog.update_progressbar (lines 117-125): sets the value of
the bar to percent, then closes the dialog when percent equals 100. -/
def ProgressBarDialog.update_progressbar (d : ProgressBarDialog)
    (percent : Int) : ProgressBarDialog :=
  let d1 : ProgressBarDialog :=
    { message := d.message, percent := percent, isOpen := d.isOpen }
  if percent = 100 then
    { message := d1.message, percent := d1.percent, isOpen := false }
  else d1

/-- How the dialog reacts to one Outcome Channel event. Only the progress
signal is connected to it (line 341 and line 428:
worker.signals.progress.connect(dialog.update_progressbar)); the result,
error and finished signals have no connection to the dialog, so those events
leave it unchanged. -/
def ProgressBarDialog.onEvent {α : Type} (d : ProgressBarDialog) :
    Event α → ProgressBarDialog
  | .progress p => d.update_progressbar p
  | .result _ => d
  | .error _ _ _ => d
  | .finished => d

/-- Delivery of a whole event trace to the dialog, in emission order. -/
def ProgressBarDialog.processEvents {α : Type} (d : ProgressBarDialog)
    (evs : List (Event α)) : ProgressBarDialog :=
  evs.foldl ProgressBarDialog.onEvent d

/-- The tail of MainWindow.create_html_report (lines 468-475): the call to
html_export is wrapped in try/except; a fault raised by the renderer is
printed to the console as print(type(e), e) and does not propagate further.
The input is the outcome of the html_export call itself; the output pairs the
console lines written with the outcome that propagates out of this code. -/
def create_html_report (render : Except Fault Unit) :
    List String × Except Fault Unit :=
  match render with
  | Except.ok _ => ([], Except.ok ())
  | Except.error e => ([e.kind ++ " " ++ e.message], Except.ok ())

/-- One step of the consumers MainWindow.create_report attaches to the report
worker (lines 427-431): the progress signal drives
dialog.update_progressbar and the finished signal opens the produced report
in the browser (webbrowser.open of report_info at lines 429-431); the result
and error signals have no consumer in create_report. The accumulator pairs
the dialog state with the list of paths opened so far. -/
def create_report_dispatch {α : Type} (path : String)
    (st : ProgressBarDialog × List String) :
    Event α → ProgressBarDialog × List String
  | .progress p => (st.1.update_progressbar p, st.2)
  | .result _ => st
  | .error _ _ _ => st
  | .finished => (st.1, st.2 ++ [path])

/-- Delivery of a worker event trace to the consumers attached by
create_report, starting from a freshly constructed dialog and no opened
paths. -/
def create_report_consume {α : Type} (message path : String)
    (evs : List (Event α)) : ProgressBarDialog × List String :=
  evs.foldl (create_report_dispatch path) (ProgressBarDialog.init message, [])

/-- The parent of a path string, modelling pathlib Path(p).parent: all
components but the last, or the current directory when there is none. -/
def pathParent (p : String) : String :=
  let comps := (p.splitOn "/").dropLast
  if comps.isEmpty then "." else String.intercalate "/" comps

/-- The slice of MainWindow state that MainWindow.create_report touches:
the selected data file, the report_info mapping (only its path entry is ever
set), and counters of the observable effects of the method, namely tasks
started on the thread pool and progress dialogs constructed and shown. -/
structure AppState where
  data_path : Option String
  report_info : Option String
  submittedTasks : Nat
  shownDialogs : Nat
deriving Repr, DecidableEq

/-- MainWindow.create_report (lines 416-433): returns at once when no data
file has been selected; otherwise records the report path next to the data
file, constructs and shows a ProgressBarDialog, and starts one Worker on the
thread pool. -/
def create_report (s : AppState) : AppState :=
  match s.data_path with
  | none => s
  | some p =>
      { s with
        report_info := some (pathParent p ++ "/index.html"),
        submittedTasks := s.submittedTasks + 1,
        shownDialogs := s.shownDialogs + 1 }

/-! Concrete instances used to exercise the definitions. -/

/-- A sample fault, standing for a raised ValueError. -/
def exampleFault : Fault :=
  { kind := "ValueError", message := "bad data",
    trace := "Traceback: ValueError: bad data" }

/-- A sample operation that reports progress 0, 50, 100 and returns 42. -/
def successOp : Operation Nat :=
  { callWithProgress := ([0, 50, 100], Except.ok 42),
    callPlain := Except.ok 42 }

/-- A sample operation that reports progress 20 and then raises. -/
def faultingOp : Operation Nat :=
  { callWithProgress := ([20], Except.error exampleFault),
    callPlain := Except.error exampleFault }

/-- The successful operation wrapped with progress_flag off. -/
def plainWorker : Worker Nat := { func := successOp, progress_flag := false }

/-- The successful operation wrapped with progress_flag on. -/
def progressWorker : Worker Nat := { func := successOp, progress_flag := true }

/-- The faulting operation wrapped with progress_flag on. -/
def faultingWorker : Worker Nat := { func := faultingOp, progress_flag := true }

/-- The faulting operation wrapped with progress_flag off. -/
def faultingWorkerPlain : Worker Nat :=
  { func := faultingOp, progress_flag := false }

/-! Helper lemmas about event traces. -/

/-- A trace made of progress events alone holds no finished event. -/
theorem countP_finished_map_progress {α : Type} (ps : List Int) :
    (ps.map (Event.progress (α := α))).countP Event.isFinished = 0 := by
  induction ps with
  | nil => rfl
  | cons p ps ih => simp [List.countP_cons, Event.isFinished, ih]

/-- A trace made of progress events alone holds no error event. -/
theorem filter_isError_map_progress {α : Type} (ps : List Int) :
    (ps.map (Event.progress (α := α))).filter Event.isError = [] := by
  induction ps with
  | nil => rfl
  | cons p ps ih => simp [Event.isError, ih]

/-- Filtering a progress-only trace for progress events keeps it whole. -/
theorem filter_isProgress_map_progress {α : Type} (ps : List Int) :
    (ps.map (Event.progress (α := α))).filter Event.isProgress
      = ps.map Event.progress := by
  induction ps with
  | nil => rfl
  | cons p ps ih => simp [Event.isProgress, ih]

/-- The last element of a list extended by two elements. -/
theorem getLast?_append_pair {β : Type _} (l : List β) (a b : β) :
    (l ++ [a, b]).getLast? = some b := by
  rw [show l ++ [a, b] = (l ++ [a]) ++ [b] by simp]
  exact List.getLast?_concat _

/-- The last element of a list extended by one element. -/
theorem getLast?_append_single {β : Type _} (l : List β) (b : β) :
    (l ++ [b]).getLast? = some b :=
  List.getLast?_concat _

/-- The events of any runWith execution are some progress prefix, then a
possibly-suppressed terminal part free of finished events, then exactly the
one finished event of the finally clause. -/
theorem runWith_events_decomp {α : Type} (w : Worker α) (ef : Option Fault) :
    ∃ (ps : List Int) (mid : List (Event α)),
      (w.runWith ef).events = ps.map Event.progress ++ (mid ++ [Event.finished])
      ∧ mid.countP Event.isFinished = 0 := by
  rcases hinv : w.invoke with ⟨ps, out⟩
  cases out with
  | ok v =>
    cases ef with
    | none =>
      exact ⟨ps, [Event.result v], by simp [Worker.runWith, hinv], rfl⟩
    | some g =>
      exact ⟨ps, [], by simp [Worker.runWith, hinv], rfl⟩
  | error f =>
    cases ef with
    | none =>
      exact ⟨ps, [Event.error f.kind f.message f.trace],
        by simp [Worker.runWith, hinv], rfl⟩
    | some g =>
      exact ⟨ps, [], by simp [Worker.runWith, hinv], rfl⟩

/-- Any runWith execution delivers exactly one finished event. -/
theorem runWith_countP_finished {α : Type} (w : Worker α) (ef : Option Fault) :
    (w.runWith ef).events.countP Event.isFinished = 1 := by
  obtain ⟨ps, mid, hev, hmid⟩ := runWith_events_decomp w ef
  simp [hev, List.countP_append, countP_finished_map_progress, hmid,
    List.countP_cons, Event.isFinished]

/-- Any runWith execution ends with the finished event. -/
theorem runWith_getLast_finished {α : Type} (w : Worker α) (ef : Option Fault) :
    (w.runWith ef).events.getLast? = some Event.finished := by
  obtain ⟨ps, mid, hev, hmid⟩ := runWith_events_decomp w ef
  rw [hev, ← List.append_assoc]
  exact getLast?_append_single _ _

/-- Processing a progress-only trace that never reaches 100 leaves an open
dialog open. -/
theorem processEvents_progress_isOpen {α : Type} (ps : List Int)
    (d : ProgressBarDialog) (hd : d.isOpen = true) (h : (100 : Int) ∉ ps) :
    (d.processEvents (ps.map (Event.progress (α := α)))).isOpen = true := by
  induction ps generalizing d with
  | nil => simpa [ProgressBarDialog.processEvents] using hd
  | cons p ps ih =>
    have hp : p ≠ 100 := by
      intro hc
      subst hc
      exact h (List.mem_cons_self _ _)
    have hd' : (d.update_progressbar p).isOpen = true := by
      simp [ProgressBarDialog.update_progressbar, hp, hd]
    have h' : (100 : Int) ∉ ps := fun hc => h (List.mem_cons_of_mem _ hc)
    simpa [ProgressBarDialog.processEvents, ProgressBarDialog.onEvent] using
      ih (d.update_progressbar p) hd' h'

/-- Folding the create_report consumers over a progress-only trace opens no
report path. -/
theorem dispatch_progress_snd {α : Type} (path : String) (ps : List Int)
    (st : ProgressBarDialog × List String) :
    ((ps.map (Event.progress (α := α))).foldl
      (create_report_dispatch path) st).2 = st.2 := by
  induction ps generalizing st with
  | nil => rfl
  | cons p ps ih =>
    simp only [List.map_cons, List.foldl_cons, create_report_dispatch]
    exact ih _

/-! The claim theorems. -/

/-- Claim C1: for every task executed by Worker.run, the Outcome Channel
emits zero or more progress events, then exactly one terminal event which is
a result event or an error event (mutually exclusive), then exactly one
finished event, and nothing after the finished event. -/
theorem worker_run_event_order {α : Type} (w : Worker α) :
    ∃ (ps : List Int) (t : Event α),
      w.run.events = ps.map Event.progress ++ [t, Event.finished]
      ∧ t.isTerminal = true := by
  rcases hinv : w.invoke with ⟨ps, out⟩
  cases out with
  | ok v =>
    exact ⟨ps, Event.result v, by simp [Worker.run, Worker.runWith, hinv], rfl⟩
  | error f =>
    exact ⟨ps, Event.error f.kind f.message f.trace,
      by simp [Worker.run, Worker.runWith, hinv], rfl⟩

/-- Claim C2: Worker.run emits exactly one finished event, as the last event,
in every case — also when delivering the terminal result or error event
itself raises, thanks to the finally clause. -/
theorem worker_run_finished_unconditional {α : Type} (w : Worker α)
    (emitFault : Option Fault) :
    (w.runWith emitFault).events.countP Event.isFinished = 1
    ∧ (w.runWith emitFault).events.getLast? = some Event.finished :=
  ⟨runWith_countP_finished w emitFault, runWith_getLast_finished w emitFault⟩

/-- Claim C3: when the operation raises a fault, Worker.run emits exactly one
error event, whose payload is exactly the kind, message and formatted
traceback of the raised fault; the traceback is also written to the
diagnostic sink, and no fault propagates out of the wrapper. -/
theorem worker_run_error_payload {α : Type} (w : Worker α) (ps : List Int)
    (f : Fault) (h : w.invoke = (ps, Except.error f)) :
    w.run.events.filter Event.isError
      = [Event.error f.kind f.message f.trace]
    ∧ w.run.log = [f.trace]
    ∧ w.run.raised = none := by
  refine ⟨?_, ?_, ?_⟩ <;>
    simp [Worker.run, Worker.runWith, h, List.filter_append,
      filter_isError_map_progress, Event.isError]

/-- Witness for C3 at the concrete faulting worker. -/
theorem worker_run_error_payload_witness :
    faultingWorker.run.events.filter Event.isError
      = [Event.error "ValueError" "bad data" "Traceback: ValueError: bad data"]
    ∧ faultingWorker.run.log = ["Traceback: ValueError: bad data"]
    ∧ faultingWorker.run.raised = none :=
  worker_run_error_payload faultingWorker [20] exampleFault rfl

/-- Claim C4: update_progressbar sets the displayed percent to the received
value and, starting from an open dialog, closes it exactly when that value is
100; error and finished events never change the dialog; hence a task that
faults without ever reporting 100 leaves the dialog open even after its
finished event is delivered. -/
theorem progressbar_close_iff_100 {α : Type} (d : ProgressBarDialog) (p : Int)
    (m : String) (w : Worker α) (ps : List Int) (f : Fault)
    (hd : d.isOpen = true)
    (hinv : w.invoke = (ps, Except.error f))
    (hnp : (100 : Int) ∉ ps) :
    (d.update_progressbar p).percent = p
    ∧ ((d.update_progressbar p).isOpen = false ↔ p = 100)
    ∧ (∀ e : Event α, e.isProgress = false → d.onEvent e = d)
    ∧ ((ProgressBarDialog.init m).processEvents w.run.events).isOpen = true := by
  refine ⟨?_, ?_, ?_, ?_⟩
  · by_cases hp : p = 100 <;> simp [ProgressBarDialog.update_progressbar, hp]
  · by_cases hp : p = 100 <;>
      simp [ProgressBarDialog.update_progressbar, hp, hd]
  · intro e he
    cases e with
    | progress q => simp [Event.isProgress] at he
    | result v => rfl
    | error k msg tr => rfl
    | finished => rfl
  · have hev : w.run.events
        = ps.map Event.progress
          ++ [Event.error f.kind f.message f.trace, Event.finished] := by
      simp [Worker.run, Worker.runWith, hinv]
    rw [hev, ProgressBarDialog.processEvents, List.foldl_append]
    simp only [List.foldl_cons, List.foldl_nil, ProgressBarDialog.onEvent]
    exact processEvents_progress_isOpen ps (ProgressBarDialog.init m) rfl hnp

/-- Witness for C4 at a fresh dialog, percent 55, and the concrete faulting
worker whose only progress value is 20. -/
theorem progressbar_close_iff_100_witness :
    ((ProgressBarDialog.init "Loading").update_progressbar 55).percent = 55
    ∧ (((ProgressBarDialog.init "Loading").update_progressbar 55).isOpen
        = false ↔ (55 : Int) = 100)
    ∧ (∀ e : Event Nat, e.isProgress = false →
        (ProgressBarDialog.init "Loading").onEvent e
          = ProgressBarDialog.init "Loading")
    ∧ ((ProgressBarDialog.init "Loading").processEvents
        faultingWorker.run.events).isOpen = true :=
  progressbar_close_iff_100 (ProgressBarDialog.init "Loading") 55 "Loading"
    faultingWorker [20] exampleFault rfl rfl (by decide)

/-- Claim C5: a fault raised by the operation body never propagates out of
Worker.run; it is always converted to an error event on the channel of that
task. -/
theorem worker_faults_localized {α : Type} (w : Worker α) :
    w.run.raised = none
    ∧ ∀ (ps : List Int) (f : Fault), w.invoke = (ps, Except.error f) →
        Event.error f.kind f.message f.trace ∈ w.run.events := by
  constructor
  · rcases hinv : w.invoke with ⟨ps, out⟩
    cases out <;> simp [Worker.run, Worker.runWith, hinv]
  · intro ps f h
    simp [Worker.run, Worker.runWith, h]

/-- Witness for C5 at the faulting worker run without a progress handle. -/
theorem worker_faults_localized_witness :
    faultingWorkerPlain.run.raised = none
    ∧ Event.error "ValueError" "bad data" "Traceback: ValueError: bad data"
        ∈ faultingWorkerPlain.run.events :=
  ⟨(worker_faults_localized faultingWorkerPlain).1,
   (worker_faults_localized faultingWorkerPlain).2 [] exampleFault rfl⟩

/-- Claim C6: when progress_flag is off, Worker.run invokes the operation
plainly with exactly its stored arguments and the wrapper emits no progress
events; when progress_flag is on, it invokes the operation with the
progress-emitting handle as an additional parameter and the progress events
of the trace are exactly one per call the operation makes on the handle. -/
theorem worker_run_argument_passing {α : Type} (w : Worker α) :
    (w.progress_flag = false →
      w.invoke = ([], w.func.callPlain)
      ∧ w.run.events.countP Event.isProgress = 0)
    ∧ (w.progress_flag = true →
      w.invoke = w.func.callWithProgress
      ∧ w.run.events.filter Event.isProgress
          = (w.func.callWithProgress.1).map Event.progress) := by
  constructor
  · intro hflag
    have hinv : w.invoke = ([], w.func.callPlain) := by
      simp [Worker.invoke, hflag]
    refine ⟨hinv, ?_⟩
    rcases hout : w.func.callPlain with v | f
    all_goals
      have h2 : w.invoke = ([], w.func.callPlain) := hinv
      rw [hout] at h2
      simp [Worker.run, Worker.runWith, h2, List.countP_cons, Event.isProgress]
  · intro hflag
    have hinv : w.invoke = w.func.callWithProgress := by
      simp [Worker.invoke, hflag]
    refine ⟨hinv, ?_⟩
    rcases hcw : w.func.callWithProgress with ⟨ps, out⟩
    have h2 : w.invoke = (ps, out) := by rw [hinv, hcw]
    cases out <;>
      simp [Worker.run, Worker.runWith, h2, hcw, List.filter_append,
        filter_isProgress_map_progress, Event.isProgress]

/-- Witness for C6 at the plain and the progress-reporting sample workers. -/
theorem worker_run_argument_passing_witness :
    (plainWorker.invoke = ([], plainWorker.func.callPlain)
      ∧ plainWorker.run.events.countP Event.isProgress = 0)
    ∧ (progressWorker.invoke = progressWorker.func.callWithProgress
      ∧ progressWorker.run.events.filter Event.isProgress
          = (progressWorker.func.callWithProgress.1).map Event.progress) :=
  ⟨(worker_run_argument_passing plainWorker).1 rfl,
   (worker_run_argument_passing progressWorker).2 rfl⟩

/-- Claim C7: a fault raised by html_export inside create_html_report is
caught locally: the surrounding code never terminates by raising, and the
fault is reported to the console sink as its kind followed by its message. -/
theorem html_export_fault_contained (render : Except Fault Unit) :
    (create_html_report render).2 = Except.ok ()
    ∧ (∀ e : Fault, render = Except.error e →
        (create_html_report render).1 = [e.kind ++ " " ++ e.message]) := by
  constructor
  · cases render <;> rfl
  · intro e h
    subst h
    rfl

/-- Witness for C7 at a faulting renderer call. -/
theorem html_export_fault_contained_witness :
    (create_html_report (Except.error exampleFault)).2 = Except.ok ()
    ∧ (create_html_report (Except.error exampleFault)).1
        = ["ValueError bad data"] :=
  ⟨(html_export_fault_contained (Except.error exampleFault)).1,
   (html_export_fault_contained (Except.error exampleFault)).2
     exampleFault rfl⟩

/-- Claim C8: the continuation create_report attaches to the finished signal
— opening the produced report — runs exactly once, whatever the trace of the
worker, hence independent of whether the task ended in a result event or an
error event. -/
theorem finished_continuation_runs {α : Type} (w : Worker α)
    (message path : String) :
    (create_report_consume message path w.run.events).2 = [path] := by
  rcases hinv : w.invoke with ⟨ps, out⟩
  cases out with
  | ok v =>
    have hev : w.run.events
        = ps.map Event.progress ++ [Event.result v, Event.finished] := by
      simp [Worker.run, Worker.runWith, hinv]
    rw [create_report_consume, hev, List.foldl_append]
    simp only [List.foldl_cons, List.foldl_nil, create_report_dispatch]
    simp [dispatch_progress_snd]
  | error f =>
    have hev : w.run.events
        = ps.map Event.progress
          ++ [Event.error f.kind f.message f.trace, Event.finished] := by
      simp [Worker.run, Worker.runWith, hinv]
    rw [create_report_consume, hev, List.foldl_append]
    simp only [List.foldl_cons, List.foldl_nil, create_report_dispatch]
    simp [dispatch_progress_snd]

/-- Claim C9: a freshly constructed ProgressBarDialog is open and displays
percent 0. -/
theorem progressbar_init_state (message : String) :
    (ProgressBarDialog.init message).isOpen = true
    ∧ (ProgressBarDialog.init message).percent = 0 :=
  ⟨rfl, rfl⟩

/-- Claim C10: when no data file has been selected, create_report returns at
once and changes nothing: no report path is recorded, no task is submitted,
no dialog is constructed or shown. -/
theorem create_report_no_data_noop (s : AppState) (h : s.data_path = none) :
    create_report s = s := by
  simp [create_report, h]

/-- Witness for C10 at the fresh application state. -/
theorem create_report_no_data_noop_witness :
    create_report { data_path := none, report_info := none,
                    submittedTasks := 0, shownDialogs := 0 }
      = { data_path := none, report_info := none,
          submittedTasks := 0, shownDialogs := 0 } :=
  create_report_no_data_noop
    { data_path := none, report_info := none,
      submittedTasks := 0, shownDialogs := 0 } rfl

end TgAnalyzer
